import Mathlib

/-!
Verification of the order-lifecycle subsystem of a multi-vendor marketplace
backend (Django/DRF).  The definitions below are a shallow embedding of
`orders/models.py`, `orders/views.py` and `orders/serializers.py`:

* money is fixed-point currency with 2 decimal places, embedded as integer
  cents (`Int`), which is exact for the additions, subtractions and
  integer-quantity multiplications the code performs;
* `timezone.now()` is a logical clock passed in as a `Nat`;
* the database is an explicit record (`Db`) holding one order, its items and
  its history tables; each mutating endpoint is a function from the database
  to a result, the new database, and the list of side-effect events (database
  writes, cache writes, transaction begin/commit) it emits in order.
-/

namespace MulVendor

/-- Order statuses, from `Order.Status` in `orders/models.py`. -/
inductive Status
  | draft
  | pendingPayment
  | paymentReceived
  | processing
  | readyForShipment
  | shipped
  | outForDelivery
  | delivered
  | cancelled
  | returnRequested
  | returnApproved
  | returnReceived
  | refunded
  | onHold
  | failed
  deriving DecidableEq, Repr

/-- Order line item, from `OrderItem` in `orders/models.py`.  `price` is unit
price in cents, `total` the stored line total in cents. -/
structure OrderItem where
  price : Int
  quantity : Nat
  tax_amount : Int
  discount_amount : Int
  total : Int
  deriving DecidableEq, Repr

/-- Method `OrderItem.save`: recomputes the stored line total as
`(price * quantity) + tax_amount - discount_amount` before persisting. -/
def OrderItem.save (it : OrderItem) : OrderItem :=
  { it with total := it.price * (it.quantity : Int) + it.tax_amount - it.discount_amount }

/-- The order row, from `Order` in `orders/models.py` (fields relevant to the
claims; notes and payment method are carried nowhere in the verified logic). -/
structure Order where
  id : Nat
  customerId : Nat
  vendorId : Nat
  status : Status
  subtotal : Int
  tax_amount : Int
  shipping_cost : Int
  discount_amount : Int
  total : Int
  assigned_to : Option Nat
  last_updated_by : Option Nat
  status_changed_at : Option Nat
  deriving DecidableEq, Repr

/-- The aggregate `Sum(F(price) * F(quantity))` over the items of an order. -/
def subtotalOfItems (items : List OrderItem) : Int :=
  (items.map (fun it => it.price * (it.quantity : Int))).sum

/-- Method `Order._calculate_totals` from `orders/models.py` (leading underscore
dropped): only when `status == Status.DRAFT` it recomputes `subtotal` from the
items and `total = subtotal + tax_amount + shipping_cost - discount_amount`;
for every other status it does nothing. -/
def Order.calculate_totals (o : Order) (items : List OrderItem) : Order :=
  if o.status = Status.draft then
    let sub := subtotalOfItems items
    { o with
        subtotal := sub
        total := sub + o.tax_amount + o.shipping_cost - o.discount_amount }
  else o

/-- An operation on the external key/value cache (Redis in the source). -/
inductive CacheEvent
  | set (key : String)
  | deletePattern (pat : String)
  deriving DecidableEq, Repr

/-- A side effect emitted by a mutating endpoint, in program order.
`txBegin`/`txCommit` delimit the `transaction.atomic()` block. -/
inductive Event
  | txBegin
  | dbInsertStatusHistory
  | dbDeactivateAssignments
  | dbInsertAssignmentHistory
  | dbUpdateOrder
  | cache (e : CacheEvent)
  | txCommit
  deriving DecidableEq, Repr

/-- Method `Order._update_caches` from `orders/models.py` (leading underscore
dropped): called at the end of every `Order.save`, it writes the order back
into the cache (`cache.set(key, self, 3600)`) under the order key, the vendor
and customer list keys, and, when an employee is assigned, the employee queue
key.  It performs no deletes. -/
def Order.update_caches (o : Order) : List CacheEvent :=
  let keys := ["order_" ++ toString o.id,
               "vendor_" ++ toString o.vendorId ++ "_orders",
               "customer_" ++ toString o.customerId ++ "_orders"]
  let keys := keys ++ (match o.assigned_to with
    | some e => ["employee_" ++ toString e ++ "_orders"]
    | none => [])
  keys.map CacheEvent.set

/-- Method `Order.save` from `orders/models.py`: when `status` is dirty (differs from
the stored value `oldStatus`) it stamps `status_changed_at`, recomputes totals
via `_calculate_totals`, writes the row (`super().save()`), then calls
`_update_caches` — so every save populates the cache.  Order-number generation
is not modelled (no claim depends on it). -/
def Order.save (oldStatus : Status) (o : Order) (items : List OrderItem) (now : Nat) :
    Order × List Event :=
  let o := if o.status ≠ oldStatus then { o with status_changed_at := some now } else o
  let o := o.calculate_totals items
  (o, Event.dbUpdateOrder :: o.update_caches.map Event.cache)

/-- Sub-roles of a vendor employee, from `VendorEmployee.EmployeeRole` and
`OrderPermission.ROLE_CHOICES`. -/
inductive EmployeeRole
  | manager
  | staff
  | customerService
  | delivery
  deriving DecidableEq, Repr

/-- The resolved role of a caller with respect to a given order (the spec
section 4.4 tagged-role view of the hasattr probing in the source). -/
inductive Role
  | admin
  | vendorOwner
  | vendorEmployee (sub : EmployeeRole)
  | customer
  | anonymous
  deriving DecidableEq, Repr

/-- Terminal statuses per the spec: Delivered, Cancelled, Refunded, Failed. -/
def Status.isTerminal : Status → Bool
  | .delivered => true
  | .cancelled => true
  | .refunded => true
  | .failed => true
  | _ => false

/-- All fifteen order statuses. -/
def allStatuses : List Status :=
  [.draft, .pendingPayment, .paymentReceived, .processing, .readyForShipment,
   .shipped, .outForDelivery, .delivered, .cancelled, .returnRequested,
   .returnApproved, .returnReceived, .refunded, .onHold, .failed]

/-- Modelled from the spec: `Order.get_status_actions(user)` is called from
`OrderViewSet.update_status` and from `OrderSerializer`, but its definition is
missing from the repository snapshot (only the call sites exist).  This
follows the role-conditioned transition table of spec section 4.2: Admin may
reach any status from any non-terminal status (and from Delivered, the one
designed exception to terminality); VendorOwner and VendorEmployee
(Manager or Customer Service) have the listed edges; every other role has
none. -/
def get_status_actions (current : Status) (role : Role) : List Status :=
  match role with
  | .admin =>
    if current.isTerminal && current ≠ Status.delivered then [] else allStatuses
  | .vendorOwner =>
    match current with
    | .paymentReceived => [.processing, .onHold]
    | .processing => [.readyForShipment, .onHold]
    | .readyForShipment => [.shipped]
    | .shipped => [.outForDelivery]
    | .outForDelivery => [.delivered]
    | .delivered => [.returnRequested]
    | .returnRequested => [.returnApproved, .cancelled]
    | _ => []
  | .vendorEmployee .manager =>
    match current with
    | .paymentReceived => [.processing]
    | .processing => [.readyForShipment]
    | .readyForShipment => [.shipped]
    | _ => []
  | .vendorEmployee .customerService =>
    match current with
    | .paymentReceived => [.processing]
    | .processing => [.readyForShipment]
    | .readyForShipment => [.shipped]
    | _ => []
  | _ => []

/-- A row of `OrderStatusHistory` from `orders/models.py`. -/
structure OrderStatusHistory where
  orderId : Nat
  old_status : Status
  new_status : Status
  changed_by : Nat
  note : String
  deriving DecidableEq, Repr

/-- A row of `OrderAssignmentHistory` from `orders/models.py`. -/
structure OrderAssignmentHistory where
  orderId : Nat
  assigned_to : Nat
  assigned_by : Nat
  created_at : Nat
  ended_at : Option Nat
  active : Bool
  deriving DecidableEq, Repr

/-- The durable store restricted to one order: the order row, its items and
its two history tables. -/
structure Db where
  order : Order
  items : List OrderItem
  status_history : List OrderStatusHistory
  assignment_history : List OrderAssignmentHistory
  deriving DecidableEq, Repr

/-- Errors raised by the endpoints, as the DRF exception classes the source
uses: `ValidationError` and `PermissionDenied` (the spec taxonomy names the
transition-refusal branch `InvalidTransitionError`, the capability branch
`PermissionError`; both are `PermissionDenied("Invalid status transition")`
respectively `PermissionDenied(...)` in the source). -/
inductive OrderError
  | validationError (msg : String)
  | permissionDenied (msg : String)
  deriving DecidableEq, Repr

/-- Endpoint `OrderViewSet.update_status` from `orders/views.py`.  A missing or
unknown status string (the `if not new_status` and `not in
dict(Order.Status.choices)` checks) is modelled as `none` and rejected with
`ValidationError`.  A status outside `get_status_actions` is rejected with
`PermissionDenied("Invalid status transition")` before any write.  Otherwise,
inside one transaction: the history row is inserted with the old status, the
order gets the new status, `status_changed_at = now`, `last_updated_by =
actor`, `order.save()` runs (recomputing totals and re-populating the cache),
and the two `cache.delete_pattern` calls run still inside the atomic block. -/
def update_status (db : Db) (actorId : Nat) (role : Role) (new_status : Option Status)
    (note : String) (now : Nat) : Except OrderError Unit × Db × List Event :=
  match new_status with
  | none => (Except.error (OrderError.validationError "Status is required"), db, [])
  | some ns =>
    if ns ∈ get_status_actions db.order.status role then
      let row : OrderStatusHistory :=
        { orderId := db.order.id
          old_status := db.order.status
          new_status := ns
          changed_by := actorId
          note := note }
      let o := { db.order with
                   status := ns
                   status_changed_at := some now
                   last_updated_by := some actorId }
      let saved := Order.save db.order.status o db.items now
      let events :=
        Event.txBegin :: Event.dbInsertStatusHistory :: saved.2
          ++ [Event.cache (CacheEvent.deletePattern
                ("order_" ++ toString db.order.id ++ "_*")),
              Event.cache (CacheEvent.deletePattern "orders_*"),
              Event.txCommit]
      (Except.ok (),
       { db with order := saved.1, status_history := db.status_history ++ [row] },
       events)
    else
      (Except.error (OrderError.permissionDenied "Invalid status transition"), db, [])

/-- The authenticated request user as `OrderViewSet.assign` probes it:
`is_superuser`, an optional owned vendor (`hasattr(user, "vendor")`, holding
the vendor id), and an optional vendor-employee profile (`hasattr(user,
"vendor_employee")`, holding the employee vendor id and the
`can_assign_orders` flag). -/
structure RequestUser where
  id : Nat
  is_superuser : Bool
  vendor : Option Nat
  vendor_employee : Option (Nat × Bool)
  deriving DecidableEq, Repr

/-- The target user of an assignment, as looked up by
`User.objects.get(pk=assigned_to_id)`.  The code reads nothing but the row
itself; the vendor of the employee profile is carried here only so that
cross-vendor inputs can be stated. -/
structure TargetUser where
  id : Nat
  employee_vendor : Option Nat
  deriving DecidableEq, Repr

/-- The actor-permission check of `OrderViewSet.assign`: superuser, or owner
of the order vendor, or employee of the order vendor holding
`can_assign_orders`. -/
def canAssign (u : RequestUser) (o : Order) : Bool :=
  u.is_superuser
    || (match u.vendor with
        | some v => decide (o.vendorId = v)
        | none => false)
    || (match u.vendor_employee with
        | some ve => decide (o.vendorId = ve.1) && ve.2
        | none => false)

/-- The bulk update `OrderAssignmentHistory.objects.filter(order=order,
active=True).update(active=False, ended_at=timezone.now())` applied to one
row: a row of the order that is active is deactivated and stamped, any other
row is returned unchanged. -/
def deactivateRow (oid : Nat) (now : Nat) (r : OrderAssignmentHistory) :
    OrderAssignmentHistory :=
  if r.orderId = oid && r.active then
    { r with active := false, ended_at := some now }
  else r

/-- Endpoint `OrderViewSet.assign` from `orders/views.py`.  The `assigned_to_id`
lookup result is passed as `target` (`none` models both the missing id and
the unknown user, each rejected with `ValidationError`).  After the
actor-permission check — which never inspects the target user — one
transaction bulk-deactivates every active history row of the order, inserts
the new active row, updates `order.assigned_to` and `order.last_updated_by`,
saves the order (populating the cache) and then runs the two
`cache.delete_pattern` calls, still inside the atomic block. -/
def assign (db : Db) (actor : RequestUser) (target : Option TargetUser) (now : Nat) :
    Except OrderError Unit × Db × List Event :=
  match target with
  | none => (Except.error (OrderError.validationError "User not found"), db, [])
  | some t =>
    if canAssign actor db.order then
      let deactivated := db.assignment_history.map (deactivateRow db.order.id now)
      let newRow : OrderAssignmentHistory :=
        { orderId := db.order.id
          assigned_to := t.id
          assigned_by := actor.id
          created_at := now
          ended_at := none
          active := true }
      let o := { db.order with
                   assigned_to := some t.id
                   last_updated_by := some actor.id }
      let saved := Order.save db.order.status o db.items now
      let events :=
        Event.txBegin :: Event.dbDeactivateAssignments
          :: Event.dbInsertAssignmentHistory :: saved.2
          ++ [Event.cache (CacheEvent.deletePattern
                ("order_" ++ toString db.order.id ++ "_*")),
              Event.cache (CacheEvent.deletePattern "orders_*"),
              Event.txCommit]
      (Except.ok (),
       { db with
           order := saved.1
           assignment_history := deactivated ++ [newRow] },
       events)
    else
      (Except.error
        (OrderError.permissionDenied "You do not have permission to assign orders"),
       db, [])

/-- Method `OrderAssignmentHistory.end_assignment(ended_by)` from
`orders/models.py`: stamps `ended_at`, clears `active`, records `ended_by`
in `assigned_by` and saves the row. -/
def OrderAssignmentHistory.end_assignment (r : OrderAssignmentHistory)
    (ended_by : Nat) (now : Nat) : OrderAssignmentHistory :=
  { r with ended_at := some now, active := false, assigned_by := ended_by }

/-- The rows with `active=true` belonging to one order. -/
def activeRows (h : List OrderAssignmentHistory) (oid : Nat) :
    List OrderAssignmentHistory :=
  h.filter (fun r => r.orderId = oid && r.active)

/-- An order as the analytics query of `VendorOrderAnalytics` sees it: its
vendor, status, stored total and the quantities of its items. -/
structure AnalyticsOrder where
  vendorId : Nat
  status : Status
  total : Int
  itemQuantities : List Nat
  deriving DecidableEq, Repr

/-- The queryset `self.vendor.vendor_orders.filter(status__in=[DELIVERED,
REFUNDED, CANCELLED])`. -/
def qualifyingOrders (vendorId : Nat) (orders : List AnalyticsOrder) :
    List AnalyticsOrder :=
  orders.filter (fun o =>
    o.vendorId = vendorId &&
      (o.status = Status.delivered || o.status = Status.refunded
        || o.status = Status.cancelled))

/-- The `VendorOrderAnalytics` row from `orders/models.py`. -/
structure VendorOrderAnalytics where
  vendorId : Nat
  total_orders : Nat
  total_revenue : Int
  average_order_value : Int
  total_items_sold : Nat
  deriving DecidableEq, Repr

/-- Method `VendorOrderAnalytics.update_analytics` exactly as the source executes
it: the method body computes the qualifying queryset and then falls off the
end, returning with every field unchanged.  The statements that would assign
`total_orders`, `total_revenue`, `average_order_value` and
`total_items_sold` sit in the source after the `return` statement of the
interleaved `__str__` method and are unreachable. -/
def VendorOrderAnalytics.update_analytics (a : VendorOrderAnalytics)
    (orders : List AnalyticsOrder) : VendorOrderAnalytics :=
  let _qualifying := qualifyingOrders a.vendorId orders
  a

/-- Modelled from the spec: `refresh(vendor)` of spec section 4.5 (which is
also what the unreachable assignment statements in the source spell out):
over the qualifying orders, `total_orders` is the count, `total_revenue` the
sum of totals, `average_order_value` their quotient (0 when the count is 0)
and `total_items_sold` the sum of the item quantities. -/
def refresh_spec (a : VendorOrderAnalytics) (orders : List AnalyticsOrder) :
    VendorOrderAnalytics :=
  let q := qualifyingOrders a.vendorId orders
  let revenue := (q.map (fun o => o.total)).sum
  let count := q.length
  { a with
      total_orders := count
      total_revenue := revenue
      average_order_value := if count = 0 then 0 else revenue / count
      total_items_sold := (q.map (fun o => o.itemQuantities.sum)).sum }

/-- An address row, reduced to its owner (`Address.user`). -/
structure Address where
  user : Nat
  deriving DecidableEq, Repr

/-- The address-relevant state of a persisted order. -/
structure OrderAddrState where
  customer : Nat
  shipping_address : Option Address
  billing_address : Option Address
  deriving DecidableEq, Repr

/-- The validated data of an order create/update request.  The outer
`Option` of each field records whether the key is present in the payload at
all (`none` = absent, mirroring the `in data` checks of the serializer);
for the addresses the inner `Option` is the nullable value. -/
structure OrderData where
  customer : Option Nat
  shipping_address : Option (Option Address)
  billing_address : Option (Option Address)
  deriving DecidableEq, Repr

/-- The address-ownership part of `OrderSerializer.validate`: the customer is
`data.get("customer", instance.customer)`; when it is known, an address key
that is present and non-null must belong to it. -/
def serializer_validate (inst : Option OrderAddrState) (d : OrderData) : Bool :=
  let customer := match d.customer with
    | some c => some c
    | none => inst.map (fun o => o.customer)
  match customer with
  | none => true
  | some c =>
    (match d.shipping_address with
     | some (some a) => decide (a.user = c)
     | _ => true) &&
    (match d.billing_address with
     | some (some a) => decide (a.user = c)
     | _ => true)

/-- Holds when a present, non-null optional address does not belong to the
given customer (the `if shipping_address and shipping_address.user != user`
pattern of `perform_create`). -/
def addrNotOwned (oa : Option Address) (c : Nat) : Bool :=
  match oa with
  | some a => decide (a.user ≠ c)
  | none => false

/-- The order-create flow of `orders/views.py` and `orders/serializers.py`:
DRF first runs `OrderSerializer.validate` (no instance), then
`OrderViewSet.perform_create`, which rejects non-customers, rejects a
shipping or billing address not owned by the request user, and saves with
`customer=user` (overriding any `customer_id` in the payload) and status
Pending Payment.  The returned record is the persisted address state. -/
def create_order (userId : Nat) (has_customer_profile : Bool) (d : OrderData) :
    Except OrderError OrderAddrState :=
  if serializer_validate none d = false then
    Except.error (OrderError.validationError "invalid data")
  else if has_customer_profile = false then
    Except.error (OrderError.permissionDenied "Only customers can create orders")
  else if addrNotOwned (d.shipping_address.getD none) userId then
    Except.error (OrderError.validationError
      "Shipping address must belong to the customer")
  else if addrNotOwned (d.billing_address.getD none) userId then
    Except.error (OrderError.validationError
      "Billing address must belong to the customer")
  else
    Except.ok
      { customer := userId
        shipping_address := d.shipping_address.getD none
        billing_address := d.billing_address.getD none }

/-- The order-update flow of `orders/views.py` and `orders/serializers.py`
(the update action is reachable only for vendor owners and superusers):
`OrderSerializer.validate` runs against the instance, then
`OrderViewSet.perform_update` forbids vendor-side actors from touching the
address keys, then `ModelSerializer.update` writes every provided field —
including `customer` — onto the instance. -/
def update_order (actor : RequestUser) (inst : OrderAddrState) (d : OrderData) :
    Except OrderError OrderAddrState :=
  if serializer_validate (some inst) d = false then
    Except.error (OrderError.validationError "invalid data")
  else if (actor.vendor.isSome || actor.vendor_employee.isSome)
      && (d.shipping_address.isSome || d.billing_address.isSome) then
    Except.error (OrderError.permissionDenied "Cannot modify customer addresses")
  else
    Except.ok
      { customer := d.customer.getD inst.customer
        shipping_address := d.shipping_address.getD inst.shipping_address
        billing_address := d.billing_address.getD inst.billing_address }

/-- The spec invariant on a persisted order: a shipping or billing address
that is set belongs to the customer of the order. -/
def addrInvariant (o : OrderAddrState) : Bool :=
  (o.shipping_address.all (fun a => a.user = o.customer))
    && (o.billing_address.all (fun a => a.user = o.customer))

/-- In a trace of cache events, detects a `set` (cache population). -/
def populatesCache (evs : List Event) : Bool :=
  evs.any (fun e =>
    match e with
    | Event.cache (CacheEvent.set _) => true
    | _ => false)

/-- Detects a cache delete that occurs strictly before the transaction
commit in the trace. -/
def deleteBeforeCommit : List Event → Bool
  | [] => false
  | Event.txCommit :: _ => false
  | Event.cache (CacheEvent.deletePattern _) :: _ => true
  | _ :: rest => deleteBeforeCommit rest

lemma calculate_totals_status (o : Order) (items : List OrderItem) :
    (o.calculate_totals items).status = o.status := by
  unfold Order.calculate_totals
  split <;> rfl

lemma calculate_totals_status_changed_at (o : Order) (items : List OrderItem) :
    (o.calculate_totals items).status_changed_at = o.status_changed_at := by
  unfold Order.calculate_totals
  split <;> rfl

lemma calculate_totals_last_updated_by (o : Order) (items : List OrderItem) :
    (o.calculate_totals items).last_updated_by = o.last_updated_by := by
  unfold Order.calculate_totals
  split <;> rfl

lemma calculate_totals_assigned_to (o : Order) (items : List OrderItem) :
    (o.calculate_totals items).assigned_to = o.assigned_to := by
  unfold Order.calculate_totals
  split <;> rfl

lemma save_fst_status (s : Status) (o : Order) (items : List OrderItem) (now : Nat) :
    (Order.save s o items now).1.status = o.status := by
  simp only [Order.save, calculate_totals_status]
  split <;> rfl

lemma save_fst_status_changed_at (s : Status) (o : Order) (items : List OrderItem)
    (now : Nat) (h : o.status_changed_at = some now) :
    (Order.save s o items now).1.status_changed_at = some now := by
  simp only [Order.save, calculate_totals_status_changed_at]
  split <;> simp [h]

lemma save_fst_last_updated_by (s : Status) (o : Order) (items : List OrderItem)
    (now : Nat) :
    (Order.save s o items now).1.last_updated_by = o.last_updated_by := by
  simp only [Order.save, calculate_totals_last_updated_by]
  split <;> rfl

lemma save_fst_assigned_to (s : Status) (o : Order) (items : List OrderItem)
    (now : Nat) :
    (Order.save s o items now).1.assigned_to = o.assigned_to := by
  simp only [Order.save, calculate_totals_assigned_to]
  split <;> rfl

/-- Two line items: 10.00 x 2 and 5.50 x 1 (cents), no item tax/discount. -/
def sampleItems : List OrderItem :=
  [{ price := 1000, quantity := 2, tax_amount := 0, discount_amount := 0, total := 0 },
   { price := 550, quantity := 1, tax_amount := 0, discount_amount := 0, total := 0 }]

/-- A concrete order of vendor 1 in Payment Received, tax 2.00, shipping 3.00,
discount 1.00. -/
def baseOrder : Order :=
  { id := 1, customerId := 5, vendorId := 1, status := Status.paymentReceived,
    subtotal := 2550, tax_amount := 200, shipping_cost := 300,
    discount_amount := 100, total := 2950, assigned_to := none,
    last_updated_by := none, status_changed_at := none }

/-- A concrete database: `baseOrder`, its two items, empty histories. -/
def baseDb : Db :=
  { order := baseOrder, items := sampleItems, status_history := [],
    assignment_history := [] }

/-- The same order still in Pending Payment with stale zero totals. -/
def pendingOrder : Order :=
  { baseOrder with status := Status.pendingPayment, subtotal := 0, total := 0 }

/-- The same order in Draft with stale zero totals. -/
def draftOrder : Order :=
  { pendingOrder with status := Status.draft }

/-- C9: for every OrderItem write, `OrderItem.save` recomputes the stored line
total, so after every save the stored total equals
`price * quantity + tax_amount - discount_amount` over the current fields
of the item. -/
theorem orderItem_save_line_total (it : OrderItem) :
    (OrderItem.save it).total =
      (OrderItem.save it).price * ((OrderItem.save it).quantity : Int)
        + (OrderItem.save it).tax_amount - (OrderItem.save it).discount_amount := rfl

/-- C5 counterexample: for an order in Pending Payment with items summing to
25.50 and a stale stored subtotal of 0, `_calculate_totals` is a no-op, so
the claimed recomputation (`subtotal` becomes the sum of the items) fails:
the claim restricts the no-op to statuses past Pending Payment, but the code
restricts recomputation to Draft alone. -/
theorem calculate_totals_pending_not_recomputed :
    pendingOrder.status = Status.pendingPayment ∧
    (Order.calculate_totals pendingOrder sampleItems).subtotal
      ≠ subtotalOfItems sampleItems := by decide

/-- C5 (amended): `_calculate_totals` recomputes
`subtotal = sum(price * quantity)` and
`total = subtotal + tax_amount + shipping_cost - discount_amount` only while
the status is Draft; for every other status — Pending Payment included — it
is a silent no-op that leaves all financial fields unchanged.  In Draft the
spec example (items 10.00 x 2 and 5.50 x 1, tax 2.00, shipping 3.00,
discount 1.00) yields subtotal 25.50 and total 29.50. -/
theorem calculate_totals_draft_only :
    (∀ (o : Order) (items : List OrderItem), o.status = Status.draft →
        (Order.calculate_totals o items).subtotal = subtotalOfItems items ∧
        (Order.calculate_totals o items).total =
          subtotalOfItems items + o.tax_amount + o.shipping_cost - o.discount_amount) ∧
    (∀ (o : Order) (items : List OrderItem), o.status ≠ Status.draft →
        Order.calculate_totals o items = o) ∧
    ((Order.calculate_totals draftOrder sampleItems).subtotal = 2550 ∧
      (Order.calculate_totals draftOrder sampleItems).total = 2950) := by
  refine ⟨?_, ?_, by decide⟩
  · intro o items h
    simp [Order.calculate_totals, h]
  · intro o items h
    simp [Order.calculate_totals, h]

/-- C5 witness: the amended theorem applied to the Draft order (recomputation
happens) and to the Pending Payment order (no-op). -/
theorem calculate_totals_draft_only_witness :
    (Order.calculate_totals draftOrder sampleItems).subtotal
        = subtotalOfItems sampleItems ∧
    Order.calculate_totals pendingOrder sampleItems = pendingOrder :=
  ⟨(calculate_totals_draft_only.1 draftOrder sampleItems (by decide)).1,
   calculate_totals_draft_only.2.1 pendingOrder sampleItems (by decide)⟩

/-- A zeroed analytics row for vendor 1. -/
def analytics0 : VendorOrderAnalytics :=
  { vendorId := 1, total_orders := 0, total_revenue := 0,
    average_order_value := 0, total_items_sold := 0 }

/-- One delivered order of vendor 1 with total 100.00 and one item of
quantity 2. -/
def deliveredOrders : List AnalyticsOrder :=
  [{ vendorId := 1, status := Status.delivered, total := 10000,
     itemQuantities := [2] }]

/-- C7: the claim describes what `refresh(vendor)` must compute, and the
unreachable statements in the source spell exactly that out, but
`update_analytics` as executed returns with every field unchanged for every
input: at the failing input (vendor 1 with one delivered order of total
100.00) the code leaves `total_orders = 0` where the claim requires
`total_orders = 1` and `total_revenue = 100.00`. -/
theorem update_analytics_is_dead_code :
    (∀ (a : VendorOrderAnalytics) (orders : List AnalyticsOrder),
        VendorOrderAnalytics.update_analytics a orders = a) ∧
    (refresh_spec analytics0 deliveredOrders).total_orders = 1 ∧
    (refresh_spec analytics0 deliveredOrders).total_revenue = 10000 ∧
    VendorOrderAnalytics.update_analytics analytics0 deliveredOrders
      ≠ refresh_spec analytics0 deliveredOrders :=
  ⟨fun _ _ => rfl, by decide, by decide, by decide⟩

/-- C1: for every order and actor, when the requested status is not in the
set the role-conditioned transition table allows for (resolved role,
current status), `update_status` fails — the branch the spec taxonomy names
`InvalidTransitionError`, raised by the source as
`PermissionDenied("Invalid status transition")` — and returns the database
unchanged: `order.status` and the `OrderStatusHistory` table keep their
values, and no side-effect event is emitted. -/
theorem update_status_invalid_transition (db : Db) (actorId : Nat) (role : Role)
    (ns : Status) (note : String) (now : Nat)
    (h : ns ∉ get_status_actions db.order.status role) :
    update_status db actorId role (some ns) note now =
      (Except.error (OrderError.permissionDenied "Invalid status transition"),
       db, []) := by
  simp [update_status, h]

/-- C1 witness: a customer holds no transitions out of Payment Received, so
requesting Processing fails and leaves the database untouched. -/
theorem update_status_invalid_transition_witness :
    Status.processing ∉ get_status_actions baseDb.order.status Role.customer ∧
    update_status baseDb 100 Role.customer (some Status.processing) "" 3 =
      (Except.error (OrderError.permissionDenied "Invalid status transition"),
       baseDb, []) :=
  ⟨by decide,
   update_status_invalid_transition baseDb 100 Role.customer Status.processing ""
     3 (by decide)⟩

/-- C2: for every order and actor for whom the requested status is an allowed
transition, `update_status` succeeds and, inside the atomic block, records
the old status in a new `OrderStatusHistory` row (exactly one row is
appended), sets `order.status` to the new status, `status_changed_at` to the
current time and `last_updated_by` to the actor.  The witness instantiates
the spec scenario: Payment Received, actor VendorOwner, update to Processing,
history gaining one (PaymentReceived, Processing) row. -/
theorem update_status_success (db : Db) (actorId : Nat) (role : Role)
    (ns : Status) (note : String) (now : Nat)
    (h : ns ∈ get_status_actions db.order.status role) :
    ∃ db' evs,
      update_status db actorId role (some ns) note now = (Except.ok (), db', evs) ∧
      db'.order.status = ns ∧
      db'.order.status_changed_at = some now ∧
      db'.order.last_updated_by = some actorId ∧
      db'.status_history = db.status_history ++
        [{ orderId := db.order.id, old_status := db.order.status,
           new_status := ns, changed_by := actorId, note := note }] := by
  simp only [update_status]
  rw [if_pos h]
  refine ⟨_, _, rfl, ?_, ?_, ?_, ?_⟩
  · simp [save_fst_status]
  · exact save_fst_status_changed_at _ _ _ _ rfl
  · simp [save_fst_last_updated_by]
  · rfl

/-- C2 witness: the theorem applied to the concrete spec scenario — order in
Payment Received, actor a VendorOwner, transition to Processing. -/
theorem update_status_success_witness :
    ∃ db' evs,
      update_status baseDb 7 Role.vendorOwner (some Status.processing) "ok" 3 =
        (Except.ok (), db', evs) ∧
      db'.order.status = Status.processing ∧
      db'.order.status_changed_at = some 3 ∧
      db'.order.last_updated_by = some 7 ∧
      db'.status_history = baseDb.status_history ++
        [{ orderId := baseDb.order.id, old_status := baseDb.order.status,
           new_status := Status.processing, changed_by := 7, note := "ok" }] :=
  update_status_success baseDb 7 Role.vendorOwner Status.processing "ok" 3
    (by decide)

/-- The owner of vendor 1 (not a superuser, no employee profile). -/
def vendorOwnerActor : RequestUser :=
  { id := 100, is_superuser := false, vendor := some 1, vendor_employee := none }

/-- An employee of vendor 2 — a different vendor than `baseOrder`. -/
def crossVendorEmp : TargetUser := { id := 200, employee_vendor := some 2 }

/-- An employee A of vendor 1. -/
def empA : TargetUser := { id := 10, employee_vendor := some 1 }

/-- An employee B of vendor 1. -/
def empB : TargetUser := { id := 20, employee_vendor := some 1 }

lemma deactivateRow_pred_false (oid now : Nat) (r : OrderAssignmentHistory) :
    (((deactivateRow oid now r).orderId = oid && (deactivateRow oid now r).active)
      = false) := by
  unfold deactivateRow
  split
  · simp
  · rename_i hcond
    simpa using hcond

lemma activeRows_append (a b : List OrderAssignmentHistory) (oid : Nat) :
    activeRows (a ++ b) oid = activeRows a oid ++ activeRows b oid := by
  simp [activeRows, List.filter_append]

lemma activeRows_deactivate (h : List OrderAssignmentHistory) (oid now : Nat) :
    activeRows (h.map (deactivateRow oid now)) oid = [] := by
  induction h with
  | nil => rfl
  | cons r rest ih =>
    simp only [activeRows, List.map_cons, List.filter_cons] at ih ⊢
    rw [deactivateRow_pred_false oid now r] at *
    simpa using ih

lemma deactivateRow_pred_mono (oid2 now oid : Nat) (r : OrderAssignmentHistory)
    (h : ((deactivateRow oid2 now r).orderId = oid
          && (deactivateRow oid2 now r).active) = true) :
    ((r.orderId = oid && r.active) = true) := by
  revert h
  unfold deactivateRow
  split
  · intro h
    simp at h
  · exact fun h => h

lemma activeRows_deactivate_le (h : List OrderAssignmentHistory)
    (oid2 now oid : Nat) :
    (activeRows (h.map (deactivateRow oid2 now)) oid).length
      ≤ (activeRows h oid).length := by
  induction h with
  | nil => simp [activeRows]
  | cons r rest ih =>
    simp only [activeRows, List.map_cons, List.filter_cons] at ih ⊢
    by_cases hp : ((deactivateRow oid2 now r).orderId = oid
        && (deactivateRow oid2 now r).active) = true
    · rw [if_pos hp, if_pos (deactivateRow_pred_mono oid2 now oid r hp)]
      simpa using ih
    · rw [if_neg hp]
      by_cases hq : ((r.orderId = oid && r.active) = true)
      · rw [if_pos hq]
        exact le_trans ih (by simp)
      · rw [if_neg hq]
        exact ih

/-- C3 counterexample: the actor is the owner of vendor 1 (not an admin), the
order belongs to vendor 1, and the target user is an employee of vendor 2 —
yet `assign` succeeds and sets `order.assigned_to` to the cross-vendor
employee: the endpoint never compares the target employee to the order
vendor and has no `CrossVendorError` branch. -/
theorem assign_cross_vendor_succeeds :
    vendorOwnerActor.is_superuser = false ∧
    crossVendorEmp.employee_vendor ≠ some baseDb.order.vendorId ∧
    (assign baseDb vendorOwnerActor (some crossVendorEmp) 4).1 = Except.ok () ∧
    (assign baseDb vendorOwnerActor (some crossVendorEmp) 4).2.1.order.assigned_to
      = some 200 :=
  ⟨rfl, by decide, rfl, rfl⟩

/-- C3 (amended): `assign` validates only the acting user — admin, owner of
the order vendor, or employee of the order vendor with `can_assign_orders` —
and performs no vendor check on the target user, so for every permitted
actor the call succeeds and assigns the target even when the target employee
belongs to a different vendor than the order; no `CrossVendorError` exists. -/
theorem assign_no_cross_vendor_check (db : Db) (actor : RequestUser)
    (t : TargetUser) (now : Nat)
    (hperm : canAssign actor db.order = true)
    (_hcross : t.employee_vendor ≠ some db.order.vendorId) :
    (assign db actor (some t) now).1 = Except.ok () ∧
    (assign db actor (some t) now).2.1.order.assigned_to = some t.id := by
  constructor
  · simp [assign, hperm]
  · simp [assign, hperm, save_fst_assigned_to]

/-- C3 witness: the amended theorem at the concrete cross-vendor input. -/
theorem assign_no_cross_vendor_check_witness :
    (assign baseDb vendorOwnerActor (some crossVendorEmp) 4).1 = Except.ok () ∧
    (assign baseDb vendorOwnerActor (some crossVendorEmp) 4).2.1.order.assigned_to
      = some 200 :=
  assign_no_cross_vendor_check baseDb vendorOwnerActor crossVendorEmp 4
    (by decide) (by decide)

/-- C10: for every successful `assign`, the active rows of the order in the
resulting assignment history are exactly the newly inserted row — whatever
the prior state, even with several active rows, because the endpoint
bulk-deactivates every active row of the order before inserting the single
new active one. -/
theorem assign_single_active (db : Db) (actor : RequestUser) (t : TargetUser)
    (now : Nat) (hperm : canAssign actor db.order = true) :
    activeRows (assign db actor (some t) now).2.1.assignment_history db.order.id
      = [{ orderId := db.order.id, assigned_to := t.id, assigned_by := actor.id,
           created_at := now, ended_at := none, active := true }] := by
  simp only [assign]
  rw [if_pos hperm]
  rw [activeRows_append, activeRows_deactivate]
  simp [activeRows]

/-- A database in an already-corrupted state: two active assignment rows. -/
def messyDb : Db :=
  { baseDb with assignment_history :=
      [{ orderId := 1, assigned_to := 11, assigned_by := 99, created_at := 1,
         ended_at := none, active := true },
       { orderId := 1, assigned_to := 12, assigned_by := 99, created_at := 2,
         ended_at := none, active := true }] }

/-- C10 witness: from a state with two active rows, one assign restores
exactly one active row — the new one. -/
theorem assign_single_active_witness :
    activeRows (assign messyDb vendorOwnerActor (some empB) 9).2.1.assignment_history
      1 =
      [{ orderId := 1, assigned_to := 20, assigned_by := 100, created_at := 9,
         ended_at := none, active := true }] :=
  assign_single_active messyDb vendorOwnerActor empB 9 (by decide)

lemma assign_history_ok (db : Db) (actor : RequestUser) (t : TargetUser)
    (now : Nat) (hperm : canAssign actor db.order = true) :
    (assign db actor (some t) now).2.1.assignment_history =
      db.assignment_history.map (deactivateRow db.order.id now) ++
        [{ orderId := db.order.id, assigned_to := t.id, assigned_by := actor.id,
           created_at := now, ended_at := none, active := true }] := by
  simp [assign, hperm]

lemma assign_denied (db : Db) (actor : RequestUser) (t : TargetUser)
    (now : Nat) (hperm : canAssign actor db.order = false) :
    (assign db actor (some t) now).2.1 = db := by
  simp [assign, hperm]

/-- The database after assigning `baseOrder` to employee A at time 5 and then
reassigning to employee B at time 7. -/
def scenarioDb2 : Db :=
  (assign (assign baseDb vendorOwnerActor (some empA) 5).2.1
    vendorOwnerActor (some empB) 7).2.1

/-- C4: (1) `assign` preserves the at-most-one-active-row invariant for every
order id, whether it succeeds or is refused; (2) `update_status` never
touches the assignment history; (3) on every successful assign, each
previously active row of the order reappears deactivated (`active = false`,
`ended_at` stamped) in the same transaction that inserts the new row;
(4) the spec scenario: assign to employee A then reassign to employee B
leaves exactly one deactivated row for A with `ended_at` set and one active
row for B. -/
theorem order_assignment_at_most_one_active :
    (∀ (db : Db) (actor : RequestUser) (t : Option TargetUser) (now oid : Nat),
        (activeRows db.assignment_history oid).length ≤ 1 →
        (activeRows (assign db actor t now).2.1.assignment_history oid).length
          ≤ 1) ∧
    (∀ (db : Db) (actorId : Nat) (role : Role) (ns : Option Status)
        (note : String) (now : Nat),
        (update_status db actorId role ns note now).2.1.assignment_history
          = db.assignment_history) ∧
    (∀ (db : Db) (actor : RequestUser) (t : TargetUser) (now : Nat)
        (r : OrderAssignmentHistory),
        canAssign actor db.order = true →
        r ∈ db.assignment_history → r.orderId = db.order.id → r.active = true →
        { r with active := false, ended_at := some now }
          ∈ (assign db actor (some t) now).2.1.assignment_history) ∧
    (scenarioDb2.assignment_history =
      [{ orderId := 1, assigned_to := 10, assigned_by := 100, created_at := 5,
         ended_at := some 7, active := false },
       { orderId := 1, assigned_to := 20, assigned_by := 100, created_at := 7,
         ended_at := none, active := true }]) := by
  refine ⟨?_, ?_, ?_, by decide⟩
  · intro db actor t now oid hle
    cases t with
    | none => exact hle
    | some t =>
      by_cases hperm : canAssign actor db.order = true
      · rw [assign_history_ok db actor t now hperm, activeRows_append]
        by_cases hoid : db.order.id = oid
        · subst hoid
          rw [activeRows_deactivate]
          simp [activeRows]
        · have h1 := activeRows_deactivate_le db.assignment_history
            db.order.id now oid
          have h2 : activeRows
              [({ orderId := db.order.id, assigned_to := t.id,
                  assigned_by := actor.id, created_at := now, ended_at := none,
                  active := true } : OrderAssignmentHistory)] oid = [] := by
            simp [activeRows, hoid]
          rw [h2, List.append_nil]
          exact le_trans h1 hle
      · rw [Bool.not_eq_true] at hperm
        rw [assign_denied db actor t now hperm]
        exact hle
  · intro db actorId role ns note now
    cases ns with
    | none => rfl
    | some s =>
      by_cases h : s ∈ get_status_actions db.order.status role
      · simp [update_status, h]
      · simp [update_status, h]
  · intro db actor t now r hperm hmem hoid hact
    rw [assign_history_ok db actor t now hperm]
    apply List.mem_append_left
    have hc : ((r.orderId = db.order.id && r.active) = true) := by
      simp [hoid, hact]
    have hrow : deactivateRow db.order.id now r =
        { r with active := false, ended_at := some now } := by
      unfold deactivateRow
      rw [if_pos hc]
    rw [← hrow]
    exact List.mem_map_of_mem _ hmem

/-- C4 witness: invariant preservation applied to a concrete assign starting
from an empty history, and the same-transaction deactivation applied to a
concrete active row of `messyDb`. -/
theorem order_assignment_at_most_one_active_witness :
    (activeRows
        (assign baseDb vendorOwnerActor (some empA) 5).2.1.assignment_history
        1).length ≤ 1 ∧
    ({ orderId := 1, assigned_to := 11, assigned_by := 99, created_at := 1,
       ended_at := some 9, active := false } : OrderAssignmentHistory)
      ∈ (assign messyDb vendorOwnerActor (some empB) 9).2.1.assignment_history :=
  ⟨order_assignment_at_most_one_active.1 baseDb vendorOwnerActor (some empA) 5 1
      (by decide),
   order_assignment_at_most_one_active.2.2.1 messyDb vendorOwnerActor empB 9
      { orderId := 1, assigned_to := 11, assigned_by := 99, created_at := 1,
        ended_at := none, active := true }
      (by decide) (by decide) (by decide) (by decide)⟩

/-- An event that is neither a transaction commit nor a cache delete. -/
def neutralEvent : Event → Bool
  | Event.txCommit => false
  | Event.cache (CacheEvent.deletePattern _) => false
  | _ => true

lemma populatesCache_of_mem (evs : List Event) (k : String)
    (h : Event.cache (CacheEvent.set k) ∈ evs) : populatesCache evs = true := by
  unfold populatesCache
  rw [List.any_eq_true]
  exact ⟨_, h, rfl⟩

lemma update_caches_has_set (o : Order) :
    CacheEvent.set ("order_" ++ toString o.id) ∈ o.update_caches := by
  unfold Order.update_caches
  apply List.mem_map_of_mem
  apply List.mem_append_left
  exact List.mem_cons_self _ _

lemma update_caches_all_set (o : Order) :
    ∀ ce ∈ o.update_caches, ∃ k, ce = CacheEvent.set k := by
  unfold Order.update_caches
  intro ce hce
  rcases List.mem_map.mp hce with ⟨k, _, rfl⟩
  exact ⟨k, rfl⟩

lemma save_snd_populates (s : Status) (o : Order) (items : List OrderItem)
    (now : Nat) :
    ∃ k, Event.cache (CacheEvent.set k) ∈ (Order.save s o items now).2 := by
  simp only [Order.save]
  split <;>
    exact ⟨_, List.mem_cons_of_mem _
      (List.mem_map_of_mem _ (update_caches_has_set _))⟩

lemma save_snd_neutral (s : Status) (o : Order) (items : List OrderItem)
    (now : Nat) :
    ∀ e ∈ (Order.save s o items now).2, neutralEvent e = true := by
  simp only [Order.save]
  split <;> {
    intro e he
    rcases List.mem_cons.mp he with h | h
    · subst h; rfl
    · rcases List.mem_map.mp h with ⟨ce, hce, rfl⟩
      rcases update_caches_all_set _ ce hce with ⟨k, rfl⟩
      rfl
  }

lemma dbc_cons_neutral (e : Event) (he : neutralEvent e = true) (l : List Event) :
    deleteBeforeCommit (e :: l) = deleteBeforeCommit l := by
  cases e with
  | txCommit => simp [neutralEvent] at he
  | cache ce =>
    cases ce with
    | deletePattern p => simp [neutralEvent] at he
    | set k => rfl
  | txBegin => rfl
  | dbInsertStatusHistory => rfl
  | dbDeactivateAssignments => rfl
  | dbInsertAssignmentHistory => rfl
  | dbUpdateOrder => rfl

lemma dbc_append_neutral (evs rest : List Event)
    (h : ∀ e ∈ evs, neutralEvent e = true) :
    deleteBeforeCommit (evs ++ rest) = deleteBeforeCommit rest := by
  induction evs with
  | nil => rfl
  | cons e tail ih =>
    rw [List.cons_append, dbc_cons_neutral e (h e (List.mem_cons_self _ _))]
    exact ih (fun x hx => h x (List.mem_cons_of_mem _ hx))

lemma update_status_events (db : Db) (actorId : Nat) (role : Role) (ns : Status)
    (note : String) (now : Nat) (h : ns ∈ get_status_actions db.order.status role) :
    (update_status db actorId role (some ns) note now).2.2 =
      Event.txBegin :: Event.dbInsertStatusHistory ::
        ((Order.save db.order.status
            { db.order with status := ns, status_changed_at := some now,
                            last_updated_by := some actorId } db.items now).2
          ++ [Event.cache (CacheEvent.deletePattern
                ("order_" ++ toString db.order.id ++ "_*")),
              Event.cache (CacheEvent.deletePattern "orders_*"),
              Event.txCommit]) := by
  simp [update_status, h]

lemma assign_events (db : Db) (actor : RequestUser) (t : TargetUser) (now : Nat)
    (hperm : canAssign actor db.order = true) :
    (assign db actor (some t) now).2.2 =
      Event.txBegin :: Event.dbDeactivateAssignments
        :: Event.dbInsertAssignmentHistory ::
        ((Order.save db.order.status
            { db.order with assigned_to := some t.id,
                            last_updated_by := some actor.id } db.items now).2
          ++ [Event.cache (CacheEvent.deletePattern
                ("order_" ++ toString db.order.id ++ "_*")),
              Event.cache (CacheEvent.deletePattern "orders_*"),
              Event.txCommit]) := by
  simp [assign, hperm]

/-- C6 counterexample: on a concrete successful `update_status`, the emitted
trace populates the cache (the `cache.set` calls of `Order.save`) and
performs its `delete_pattern` calls before the transaction commit — both
forbidden by the claim, which requires deletion only after commit and no
population on the write path. -/
theorem cache_discipline_violated :
    (update_status baseDb 7 Role.vendorOwner (some Status.processing) "" 3).1
      = Except.ok () ∧
    populatesCache
      (update_status baseDb 7 Role.vendorOwner (some Status.processing) "" 3).2.2
      = true ∧
    deleteBeforeCommit
      (update_status baseDb 7 Role.vendorOwner (some Status.processing) "" 3).2.2
      = true :=
  ⟨rfl, by decide, by decide⟩

/-- C6 (amended): on every successful `update_status` and every successful
`assign`, the cache deletes are issued inside the transaction block, before
the commit, and the write path populates the cache: `Order.save` ends by
re-writing the order into its cache keys with `cache.set`. -/
theorem cache_discipline_amended :
    (∀ (db : Db) (actorId : Nat) (role : Role) (ns : Status) (note : String)
        (now : Nat), ns ∈ get_status_actions db.order.status role →
        populatesCache
            (update_status db actorId role (some ns) note now).2.2 = true ∧
        deleteBeforeCommit
            (update_status db actorId role (some ns) note now).2.2 = true) ∧
    (∀ (db : Db) (actor : RequestUser) (t : TargetUser) (now : Nat),
        canAssign actor db.order = true →
        populatesCache (assign db actor (some t) now).2.2 = true ∧
        deleteBeforeCommit (assign db actor (some t) now).2.2 = true) := by
  constructor
  · intro db actorId role ns note now h
    rw [update_status_events db actorId role ns note now h]
    constructor
    · obtain ⟨k, hk⟩ := save_snd_populates db.order.status
        { db.order with status := ns, status_changed_at := some now,
                        last_updated_by := some actorId } db.items now
      exact populatesCache_of_mem _ k
        (List.mem_cons_of_mem _ (List.mem_cons_of_mem _
          (List.mem_append_left _ hk)))
    · rw [dbc_cons_neutral Event.txBegin rfl,
        dbc_cons_neutral Event.dbInsertStatusHistory rfl,
        dbc_append_neutral _ _ (save_snd_neutral _ _ _ _)]
      rfl
  · intro db actor t now hperm
    rw [assign_events db actor t now hperm]
    constructor
    · obtain ⟨k, hk⟩ := save_snd_populates db.order.status
        { db.order with assigned_to := some t.id,
                        last_updated_by := some actor.id } db.items now
      exact populatesCache_of_mem _ k
        (List.mem_cons_of_mem _ (List.mem_cons_of_mem _
          (List.mem_cons_of_mem _ (List.mem_append_left _ hk))))
    · rw [dbc_cons_neutral Event.txBegin rfl,
        dbc_cons_neutral Event.dbDeactivateAssignments rfl,
        dbc_cons_neutral Event.dbInsertAssignmentHistory rfl,
        dbc_append_neutral _ _ (save_snd_neutral _ _ _ _)]
      rfl

/-- C6 witness: the amended theorem applied to a concrete status update and a
concrete assignment. -/
theorem cache_discipline_amended_witness :
    (populatesCache
        (update_status baseDb 7 Role.vendorOwner (some Status.processing) "x" 3).2.2
        = true ∧
      deleteBeforeCommit
        (update_status baseDb 7 Role.vendorOwner (some Status.processing) "x" 3).2.2
        = true) ∧
    (populatesCache (assign baseDb vendorOwnerActor (some empA) 5).2.2 = true ∧
      deleteBeforeCommit (assign baseDb vendorOwnerActor (some empA) 5).2.2
        = true) :=
  ⟨cache_discipline_amended.1 baseDb 7 Role.vendorOwner Status.processing "x" 3
      (by decide),
   cache_discipline_amended.2 baseDb vendorOwnerActor empA 5 (by decide)⟩

lemma addrNotOwned_false_all (oa : Option Address) (c : Nat)
    (h : addrNotOwned oa c = false) :
    oa.all (fun a => a.user = c) = true := by
  cases oa with
  | none => rfl
  | some a =>
    simp [addrNotOwned] at h
    simp [Option.all, h]

/-- A persisted order of customer 1 with a shipping address owned by
customer 1. -/
def custOneOrder : OrderAddrState :=
  { customer := 1, shipping_address := some { user := 1 },
    billing_address := none }

/-- An update payload that changes the customer to user 2 and touches no
address key. -/
def switchCustomerData : OrderData :=
  { customer := some 2, shipping_address := none, billing_address := none }

/-- A superuser actor (no vendor or employee profile). -/
def superActor : RequestUser :=
  { id := 42, is_superuser := true, vendor := none, vendor_employee := none }

/-- C8 counterexample: an update that changes `customer` from 1 to 2 without
touching the address keys passes `OrderSerializer.validate` (which only
checks address keys present in the payload) and `perform_update`, and is
persisted — leaving a shipping address owned by user 1 on an order whose
customer is now user 2, so the claimed invariant fails for a persisted
order. -/
theorem address_invariant_not_preserved :
    addrInvariant custOneOrder = true ∧
    update_order superActor custOneOrder switchCustomerData =
      Except.ok { customer := 2, shipping_address := some { user := 1 },
                  billing_address := none } ∧
    addrInvariant { customer := 2, shipping_address := some { user := 1 },
                    billing_address := none } = false :=
  ⟨by decide, rfl, by decide⟩

/-- C8 (amended): every create validates a supplied shipping or billing
address against the creating customer and persists an order satisfying the
address-ownership invariant, and every update that does not change the
customer preserves the invariant (supplied addresses are validated against
the customer of the order, absent keys keep the already-valid addresses); the
invariant can only be broken by an update that changes the customer while
leaving the stale addresses in place. -/
theorem address_checks_on_writes :
    (∀ (userId : Nat) (hp : Bool) (d : OrderData) (o : OrderAddrState),
        create_order userId hp d = Except.ok o → addrInvariant o = true) ∧
    (∀ (actor : RequestUser) (inst : OrderAddrState) (d : OrderData)
        (o : OrderAddrState),
        d.customer = none → addrInvariant inst = true →
        update_order actor inst d = Except.ok o → addrInvariant o = true) := by
  constructor
  · intro userId hp d o h
    unfold create_order at h
    split_ifs at h with h1 h2 h3 h4
    all_goals first
      | exact Except.noConfusion h
      | (injection h with h'
         subst h'
         rw [Bool.not_eq_true] at h3 h4
         unfold addrInvariant
         rw [Bool.and_eq_true]
         exact ⟨addrNotOwned_false_all _ _ h3, addrNotOwned_false_all _ _ h4⟩)
  · intro actor inst d o hcust hinv h
    unfold update_order at h
    split_ifs at h with h1 h2
    all_goals first
      | exact Except.noConfusion h
      | (injection h with h'
         subst h'
         rw [Bool.not_eq_false] at h1
         unfold serializer_validate at h1
         rw [hcust] at h1
         simp only [Option.map_some'] at h1
         rw [Bool.and_eq_true] at h1
         obtain ⟨hA, hB⟩ := h1
         unfold addrInvariant at hinv ⊢
         rw [Bool.and_eq_true] at hinv ⊢
         rw [hcust]
         constructor
         · cases hs : d.shipping_address with
           | none => simpa using hinv.1
           | some v =>
             rw [hs] at hA
             cases v with
             | none => rfl
             | some a => simpa using hA
         · cases hb : d.billing_address with
           | none => simpa using hinv.2
           | some v =>
             rw [hb] at hB
             cases v with
             | none => rfl
             | some a => simpa using hB)

/-- C8 witness: the amended theorem applied to a concrete create with an
owned shipping address and to a concrete customer-preserving update that
adds an owned billing address. -/
theorem address_checks_on_writes_witness :
    addrInvariant { customer := 1, shipping_address := some { user := 1 },
                    billing_address := none } = true ∧
    addrInvariant { customer := 1, shipping_address := some { user := 1 },
                    billing_address := some { user := 1 } } = true :=
  ⟨address_checks_on_writes.1 1 true
      { customer := none, shipping_address := some (some { user := 1 }),
        billing_address := none }
      { customer := 1, shipping_address := some { user := 1 },
        billing_address := none } rfl,
   address_checks_on_writes.2 superActor custOneOrder
      { customer := none, shipping_address := none,
        billing_address := some (some { user := 1 }) }
      { customer := 1, shipping_address := some { user := 1 },
        billing_address := some { user := 1 } }
      rfl (by decide) rfl⟩

end MulVendor
